import Mathlib

/-!
A verification development for the `clmunch` log-munching tool
(`src/clmunch/clmunch.py` and `src/clmunch/utils.py`).

A log line is modelled as a `List Char` (without its trailing newline);
the full log text is the lines re-joined with `'\n'`.  The regular
expressions of the source are embedded as deterministic matchers: every
pattern used by the tool is of the "literal / maximal character-class run
/ whitespace run" shape for which greedy backtracking matching coincides
with maximal-munch matching, so the embedding is an exact model.
Fallible operations (`datetime.strptime`, `Path.relative_to`, attribute
access, column projection) are modelled in `Except`.
-/

namespace Clmunch

/-- A log line, without its trailing newline. -/
abbrev Line := List Char

/-- A filesystem path, as its list of segments. -/
abbrev FsPath := List String

/-- Python's `\s` class over ASCII text (space, tab, newline, return,
vertical tab, form feed). -/
def isPySpace (c : Char) : Bool :=
  c = ' ' || c = '\t' || c = '\n' || c = '\r' || c = '\x0b' || c = '\x0c'

/-- Maximal-munch `\s*`: drop the leading whitespace run. -/
def dropSpaces : Line → Line
  | [] => []
  | c :: l => if isPySpace c then dropSpaces l else c :: l

/-- `\s*$`: the whole remainder is whitespace. -/
def onlySpaces (l : Line) : Bool := l.all isPySpace

/-- Consume a literal: `stripLit p l = some r` iff `l = p ++ r`. -/
def stripLit : Line → Line → Option Line
  | [], l => some l
  | _ :: _, [] => none
  | c :: p, d :: l => if d = c then stripLit p l else none

/-- Two strings diverge: they differ at a common position (so neither is
a prefix of the other up to that point). -/
def divergeAt : Line → Line → Bool
  | [], _ => false
  | _, [] => false
  | a :: as, b :: bs => a ≠ b || divergeAt as bs

/-- Python's substring test `pat in l`. -/
def isSubstring (pat : Line) : Line → Bool
  | [] => (stripLit pat []).isSome
  | c :: t => (stripLit pat (c :: t)).isSome || isSubstring pat t

/-- Value of a digit run. -/
def toNum (ds : List Char) : Nat :=
  ds.foldl (fun n c => n * 10 + (c.toNat - '0'.toNat)) 0

/-- `\d{n}`: exactly `n` digits, returning them and the remainder. -/
def takeDigits : Nat → Line → Option (List Char × Line)
  | 0, l => some ([], l)
  | _ + 1, [] => none
  | n + 1, c :: l =>
    if c.isDigit then (takeDigits n l).map (fun p => (c :: p.1, p.2)) else none

/-- Greedy `\d{0,n}`: up to `n` digits, returning them and the remainder. -/
def takeDigitsAtMost : Nat → Line → List Char × Line
  | 0, l => ([], l)
  | _ + 1, [] => ([], [])
  | n + 1, c :: l =>
    if c.isDigit then
      let p := takeDigitsAtMost n l
      (c :: p.1, p.2)
    else ([], c :: l)

/-- Consume one expected character. -/
def lit1 (c : Char) : Line → Option Line
  | [] => none
  | d :: l => if d = c then some l else none

/-- The numeric fields captured by `RX_TIMESTAMP`
(`^\d{6}-\d{2}:\d{2}:\d{2},\d{1,3}`), split as `%y%m%d-%H:%M:%S,%f`.
The split of the six leading digits into year/month/day is forced:
each of `%y`, `%m`, `%d` consumes at most two digits and together they
must consume all six before the literal `-`. -/
structure TsRaw where
  yy : Nat
  mo : Nat
  dd : Nat
  hh : Nat
  mi : Nat
  ss : Nat
  frac : List Char
deriving DecidableEq, Repr

/-- `re.match(RX_TIMESTAMP, line)`: match the timestamp shape at the
start of the line, greedily taking one to three fractional digits. -/
def matchTimestamp (l : Line) : Option TsRaw := do
  let (y, r1) ← takeDigits 2 l
  let (mo, r2) ← takeDigits 2 r1
  let (d, r3) ← takeDigits 2 r2
  let r4 ← lit1 '-' r3
  let (h, r5) ← takeDigits 2 r4
  let r6 ← lit1 ':' r5
  let (mi, r7) ← takeDigits 2 r6
  let r8 ← lit1 ':' r7
  let (s, r9) ← takeDigits 2 r8
  let r10 ← lit1 ',' r9
  let f := (takeDigitsAtMost 3 r10).1
  if f.isEmpty then none
  else
    some { yy := toNum y, mo := toNum mo, dd := toNum d,
           hh := toNum h, mi := toNum mi, ss := toNum s, frac := f }

/-- Gregorian leap year. -/
def isLeap (y : Nat) : Bool := (y % 4 = 0 && y % 100 ≠ 0) || y % 400 = 0

/-- Length of a month. -/
def daysInMonth (y m : Nat) : Nat :=
  if m = 2 then (if isLeap y then 29 else 28)
  else if m = 4 || m = 6 || m = 9 || m = 11 then 30
  else 31

/-- Days in year `y` before the first day of month `m`. -/
def daysBeforeMonth (y m : Nat) : Nat :=
  (List.range (m - 1)).foldl (fun acc i => acc + daysInMonth y (i + 1)) 0

/-- Proleptic-Gregorian day number of a date (0 for year 1, Jan 1). -/
def toOrdinal (y m d : Nat) : Nat :=
  (y - 1) * 365 + (y - 1) / 4 - (y - 1) / 100 + (y - 1) / 400
    + daysBeforeMonth y m + (d - 1)

/-- `%f` value: fractional digits are right-padded to microseconds. -/
def fracMicros (f : List Char) : Nat := toNum f * 10 ^ (6 - f.length)

/-- `datetime.strptime(group, "%y%m%d-%H:%M:%S,%f")`, as the datetime's
microsecond timeline value (datetime comparison and subtraction factor
through this value).  `none` models the `ValueError` raised for a field
out of range (`%y` maps 00-68 to 2000-2068 and 69-99 to 1969-1999). -/
def strptime (t : TsRaw) : Option Nat :=
  let year := if t.yy ≤ 68 then 2000 + t.yy else 1900 + t.yy
  if 1 ≤ t.mo && t.mo ≤ 12 && 1 ≤ t.dd && t.dd ≤ daysInMonth year t.mo
      && t.hh ≤ 23 && t.mi ≤ 59 && t.ss ≤ 59 then
    some (((((toOrdinal year t.mo t.dd) * 24 + t.hh) * 60 + t.mi) * 60 + t.ss)
      * 1000000 + fracMicros t.frac)
  else none

/-- `^\s*<lit>(.*)$`: strip leading whitespace and the literal, capture
the remainder of the line. -/
def restMatch (lit : String) (l : Line) : Option Line :=
  stripLit lit.toList (dropSpaces l)

/-- `^\s*<lit>\s*$`: strip leading whitespace and the literal, require
the remainder to be whitespace only. -/
def markerMatch (lit : String) (l : Line) : Bool :=
  match stripLit lit.toList (dropSpaces l) with
  | some r => onlySpaces r
  | none => false

/-- `RX_CPAC_COMMAND`: `^\s*Run command: (.*)$`. -/
def matchRunCommand (l : Line) : Option Line := restMatch "Run command: " l

/-- `RX_CPAC_VERSION`: `^\s*C-PAC version: (.*)$`. -/
def matchVersion (l : Line) : Option Line := restMatch "C-PAC version: " l

/-- `RX_CPAC_END_PIPELINE_CONFIG`: `^\s*Pipeline configuration: (.*)$`. -/
def matchPipelineConfiguration (l : Line) : Option Line :=
  restMatch "Pipeline configuration: " l

/-- `RX_CPAC_END_SUBJECT_WORKFLOW`: `^\s*Subject workflow: (.*)$`. -/
def matchSubjectWorkflow (l : Line) : Option Line :=
  restMatch "Subject workflow: " l

/-- `RC_CPAC_END_SUCCESS`: `^\s*CPAC run complete:\s*$`. -/
def isSuccessLine (l : Line) : Bool := markerMatch "CPAC run complete:" l

/-- `RC_CPAC_END_SUCCESS_TEST_CONFIG`: the fixed test-config sentence. -/
def isTestConfigSuccessLine (l : Line) : Bool :=
  markerMatch
    "This has been a tests of the pipeline configuration file, the pipeline was built successfully, but was not run"
    l

/-- `RC_CPAC_END_ERROR`: `^\s*CPAC run error:\s*$`. -/
def isErrorLine (l : Line) : Bool := markerMatch "CPAC run error:" l

/-- One attempt of `re.search(r"--preconfig\s*(\S+)", s)` anchored at
the current position: the literal, a maximal whitespace run, then a
nonempty maximal non-whitespace run (the capture). -/
def preconfigAt (l : Line) : Option Line :=
  (stripLit "--preconfig".toList l).bind fun r =>
    let r2 := dropSpaces r
    let cap := r2.takeWhile (fun c => !isPySpace c)
    if cap.isEmpty then none else some cap

/-- `RX_CPAC_PIPELINE_CONFIG_COMMAND_FALLBACK` searched left to right. -/
def searchPreconfig : Line → Option Line
  | [] => preconfigAt []
  | c :: t =>
    match preconfigAt (c :: t) with
    | some cap => some cap
    | none => searchPreconfig t

/-- A token of one of the three `RXS_CPAC_ERROR_LOOKUP` patterns.  In
these patterns every capturing class excludes the character that
immediately follows it (`[^']+` before `'`, `[^]]+` before `]`, `\s+`
before a non-whitespace literal or a line capture), so greedy matching
is maximal-munch and needs no backtracking. -/
inductive PatTok where
  /-- A literal piece of the pattern. -/
  | lit (s : String)
  /-- `([^']+)`: capture a nonempty run of non-quote characters. -/
  | capNoQuote
  /-- `([^]]+)`: capture a nonempty run of non-bracket characters. -/
  | capNoRBracket
  /-- `\s+`: a nonempty whitespace run, not captured. -/
  | wsPlus
  /-- `([^\n]*)`: capture the rest of the current line. -/
  | capToEol
deriving DecidableEq, Repr

/-- Match a token sequence at the start of the text, returning the list
of captures in order. -/
def matchToks : List PatTok → Line → Option (List Line)
  | [], _ => some []
  | .lit s :: ps, l => (stripLit s.toList l).bind (matchToks ps)
  | .capNoQuote :: ps, l =>
    let cap := l.takeWhile (fun c => c ≠ '\'')
    if cap.isEmpty then none
    else (matchToks ps (l.dropWhile (fun c => c ≠ '\''))).map (fun cs => cap :: cs)
  | .capNoRBracket :: ps, l =>
    let cap := l.takeWhile (fun c => c ≠ ']')
    if cap.isEmpty then none
    else (matchToks ps (l.dropWhile (fun c => c ≠ ']'))).map (fun cs => cap :: cs)
  | .wsPlus :: ps, l =>
    if (l.takeWhile isPySpace).isEmpty then none
    else matchToks ps (l.dropWhile isPySpace)
  | .capToEol :: ps, l =>
    (matchToks ps (l.dropWhile (fun c => c ≠ '\n'))).map
      (fun cs => l.takeWhile (fun c => c ≠ '\n') :: cs)

/-- `re.search`: try the pattern at each position, leftmost match wins. -/
def searchToks (p : List PatTok) : Line → Option (List Line)
  | [] => matchToks p []
  | c :: t =>
    match matchToks p (c :: t) with
    | some cs => some cs
    | none => searchToks p t

/-- `RX_CPAC_ERROR1_LOOKUP`. -/
def rxError1 : List PatTok :=
  [.lit "LookupError: When trying to connect node block '", .capNoQuote,
   .lit "' to workflow '", .capNoQuote,
   .lit "' after node block '", .capNoQuote,
   .lit "':", .wsPlus,
   .lit "[!] C-PAC says: None of the listed resources are in the resource pool:",
   .wsPlus, .capToEol]

/-- `RX_CPAC_ERROR2_LOOKUP`. -/
def rxError2 : List PatTok :=
  [.lit "LookupError: When trying to connect node block '", .capNoQuote,
   .lit "' to workflow '", .capNoQuote,
   .lit "' after node block '", .capNoQuote,
   .lit "':", .wsPlus,
   .lit "[!] C-PAC says: None of the listed resources in the node block being connected exist in the resource pool.",
   .wsPlus, .lit "Resources:", .wsPlus, .capToEol]

/-- `RX_CPAC_ERROR3_LOOKUP`. -/
def rxError3 : List PatTok :=
  [.lit "LookupError: When trying to connect one of the node blocks [", .capNoRBracket,
   .lit "] to workflow '", .capNoQuote,
   .lit "' after node block '", .capNoQuote,
   .lit "':", .wsPlus,
   .lit "[!] C-PAC says: None of the listed resources are in the resource pool:",
   .wsPlus, .capToEol]

/-- The `error_info` dict built from a matched error signature. -/
structure ErrorInfo where
  node_block : Line
  target_work_flow : Line
  previous_node_block : Line
  missing_resources : Line
  pipeline_config : Option Line := none
deriving DecidableEq, Repr

/-- Build an `ErrorInfo` from the four captures of one pattern. -/
def errorInfoOfCaps : List Line → Option ErrorInfo
  | [a, b, c, d] => some { node_block := a, target_work_flow := b,
                           previous_node_block := c, missing_resources := d }
  | _ => none

/-- The `for rx_error in RXS_CPAC_ERROR_LOOKUP` loop: first pattern that
matches anywhere in the full log text wins. -/
def searchErrorSignature (text : Line) : Option ErrorInfo :=
  match searchToks rxError1 text with
  | some cs => errorInfoOfCaps cs
  | none =>
    match searchToks rxError2 text with
    | some cs => errorInfoOfCaps cs
    | none =>
      match searchToks rxError3 text with
      | some cs => errorInfoOfCaps cs
      | none => none

/-- The mutable locals of `CpacRun.__init__` during the line loop. -/
structure PState where
  minTime : Option Nat := none
  maxTime : Option Nat := none
  command : Option Line := none
  test_config : Option Bool := none
  version : Option Line := none
  pipeline_config : Option Line := none
  subject_workflow : Option Line := none
  cpac_success : Bool := false
  cpac_error : Bool := false
deriving DecidableEq, Repr

/-- The success-branch condition of the line loop:
`re.match(RC_CPAC_END_SUCCESS, line) or (self.test_config and
re.match(RC_CPAC_END_SUCCESS_TEST_CONFIG, line))` (a `None`
`test_config` is falsy). -/
def successGuard (tc : Option Bool) (l : Line) : Bool :=
  isSuccessLine l || (tc == some true && isTestConfigSuccessLine l)

/-- The timestamp branch's update of the running `min_time`/`max_time`. -/
def updateTimes (st : PState) (stamp : Nat) : PState :=
  { st with
    minTime := match st.minTime with
      | none => some stamp
      | some m => if stamp < m then some stamp else some m,
    maxTime := match st.maxTime with
      | none => some stamp
      | some m => if stamp > m then some stamp else some m }

/-- One iteration of the `while line := f.readline()` loop: the
if/elif chain of `CpacRun.__init__`, first matching rule wins.  A line
matching the timestamp shape but failing strict datetime parsing is a
fatal `ValueError`. -/
def processLine (st : PState) (l : Line) : Except String PState :=
  match matchTimestamp l with
  | some raw =>
    match strptime raw with
    | none => .error "ValueError: unparseable timestamp"
    | some stamp => .ok (updateTimes st stamp)
  | none =>
  match matchRunCommand l with
  | some c =>
    .ok { st with command := some c,
                  test_config := some (isSubstring " test_config ".toList c) }
  | none =>
  match matchVersion l with
  | some v => .ok { st with version := some v }
  | none =>
  match matchPipelineConfiguration l with
  | some p => .ok { st with pipeline_config := some p }
  | none =>
  match matchSubjectWorkflow l with
  | some w => .ok { st with subject_workflow := some w }
  | none =>
  if successGuard st.test_config l then .ok { st with cpac_success := true }
  else if isErrorLine l then .ok { st with cpac_error := true }
  else .ok st

/-- The whole line loop. -/
def processLog (st : PState) : List Line → Except String PState
  | [] => .ok st
  | l :: ls =>
    match processLine st l with
    | .ok st' => processLog st' ls
    | .error e => .error e

/-- The accumulated `log_text`: each line followed by its newline. -/
def logText (lines : List Line) : Line :=
  lines.foldr (fun l acc => l ++ '\n' :: acc) []

/-- `pathlib.Path.relative_to`: drop the base segments, a `ValueError`
if the base is not an initial segment of the path. -/
def relativeTo (p base : FsPath) : Except String FsPath :=
  if base.isPrefixOf p then .ok (p.drop base.length)
  else .error "ValueError: path is not relative to base"

/-- `str()` of a path: segments joined with `/`. -/
def pathStr (p : FsPath) : Line := (String.intercalate "/" p).toList

/-- The name component of a path (empty for the root). -/
def pathName (p : FsPath) : String := p.getLastD ""

/-- The directory component of a path. -/
def pathParent (p : FsPath) : FsPath := p.dropLast

/-- Does a file name match the glob pattern `crash-*.txt`? -/
def isCrashFileName (n : Line) : Bool :=
  match stripLit "crash-".toList n with
  | some r => "txt.".toList.isPrefixOf r.reverse
  | none => false

/-- `find_crash_files`: `log_file.parent.glob("../../crash-*.txt")` over
a filesystem given as the list of existing files.  The matches are the
files whose directory is two levels above the log file's parent and
whose name matches `crash-*.txt`; zero matches yields the empty list. -/
def find_crash_files (log_file : FsPath) (fs : List FsPath) : List FsPath :=
  fs.filter fun f =>
    pathParent f == pathParent (pathParent (pathParent log_file))
      && isCrashFileName (pathName f).toList

/-- The attributes of a fully constructed `CpacRun`.  `diff` is `none`
when `max_time is not None and min_time is not None` failed, in which
case the Python attribute was never assigned and reading it raises
`AttributeError` (see `CpacRun.record`). -/
structure CpacRun where
  log_file : FsPath
  base_dir : FsPath
  command : Option Line
  test_config : Option Bool
  version : Option Line
  pipeline_config : Option Line
  subject_workflow : Option Line
  error_info : Option ErrorInfo
  diff : Option Nat
  start : Option Nat
  crashfiles : List FsPath
  success : Bool
deriving DecidableEq, Repr

/-- The `pipeline_config` value after the command-line fallback step
(`if self.pipeline_config is None and self.command is not None`), still
possibly `None` before the relative-path fallback. -/
def pcPreResolve (st : PState) : Option Line :=
  match st.pipeline_config, st.command with
  | none, some c => searchPreconfig c
  | pc, _ => pc

/-- The post-loop part of `CpacRun.__init__`.  The log file's content is
passed as its list of lines; the filesystem (for the crash-file glob) as
the list of existing files. -/
def mkCpacRun (lines : List Line) (log_file base_dir : FsPath)
    (fs : List FsPath) : Except String CpacRun := do
  let st ← processLog {} lines
  let einfo0 := if st.cpac_error || !st.cpac_success then
      searchErrorSignature (logText lines)
    else none
  let diff := match st.maxTime, st.minTime with
    | some mx, some mn => some (mx - mn)
    | _, _ => none
  let pc ← match pcPreResolve st with
    | some v => pure v
    | none => do
      let rel ← relativeTo log_file base_dir
      pure (pathStr rel)
  let einfo := einfo0.map fun e => { e with pipeline_config := some pc }
  pure
    { log_file := log_file, base_dir := base_dir,
      command := st.command, test_config := st.test_config,
      version := st.version, pipeline_config := some pc,
      subject_workflow := st.subject_workflow,
      error_info := einfo, diff := diff, start := st.minTime,
      crashfiles := find_crash_files log_file fs,
      success := st.cpac_success && !st.cpac_error }

/-- The dict returned by `CpacRun.record()`. -/
structure RecordData where
  file : FsPath
  start : Option Nat
  duration : Nat
  command : Option Line
  version : Option Line
  pipeline_config : Option Line
  subject_workflow : Option Line
  success : Bool
  crashfiles : List FsPath
deriving DecidableEq, Repr

/-- `CpacRun.record()`.  It reads `self.diff`, which was only assigned
when both a minimum and a maximum timestamp exist; on a log with no
timestamped lines the attribute is missing and the read raises
`AttributeError`. -/
def CpacRun.record (r : CpacRun) : Except String RecordData :=
  match r.diff with
  | none => .error "AttributeError: 'CpacRun' object has no attribute 'diff'"
  | some d =>
    .ok { file := r.log_file, start := r.start, duration := d,
          command := r.command, version := r.version,
          pipeline_config := r.pipeline_config,
          subject_workflow := r.subject_workflow,
          success := r.success, crashfiles := r.crashfiles }

/-- Lexicographic order on lines by character code, the order Python
uses to compare strings. -/
def lineLe : Line → Line → Bool
  | [], _ => true
  | _ :: _, [] => false
  | a :: as, b :: bs => if a = b then lineLe as bs else decide (a < b)

/-- Order on the sort key `(x.pipeline_config is None, x.pipeline_config)`:
tuple comparison puts `False` before `True`, so resolved names come
first, compared as strings; two `None`s are equal. -/
def pcKeyLe : Option Line → Option Line → Bool
  | none, none => true
  | none, some _ => false
  | some _, none => true
  | some a, some b => lineLe a b

/-- The comparison induced by the sort key of
`CpacRunCollection.__init__`. -/
def runLe (x y : CpacRun) : Bool := pcKeyLe x.pipeline_config y.pipeline_config

/-- Insert into a sorted list, before the first element not strictly
smaller: the insertion step of a stable sort. -/
def insortBy (le : α → α → Bool) (x : α) : List α → List α
  | [] => [x]
  | y :: l => if le x y then x :: y :: l else y :: insortBy le x l

/-- Stable insertion sort.  Python's `list.sort` is a stable sort, and a
stable sort's output is uniquely determined by the comparison and the
input, so this is extensionally `list.sort`. -/
def stableSortBy (le : α → α → Bool) : List α → List α
  | [] => []
  | x :: l => insortBy le x (stableSortBy le l)

/-- `CpacRunCollection.__init__`: parse every discovered log file (given
here as pairs of path and content) and sort by
`(x.pipeline_config is None, x.pipeline_config)`. -/
def cpacRunCollection (logs : List (FsPath × List Line)) (base_path : FsPath)
    (fs : List FsPath) : Except String (List CpacRun) := do
  let runs ← logs.mapM fun pr => mkCpacRun pr.2 pr.1 base_path fs
  pure (stableSortBy runLe runs)

/-- The columns of `pd.DataFrame.from_records([r.record() for r in runs])`
when at least one record exists: the dict keys in order. -/
def recordColumns : List String :=
  ["file", "start", "duration", "command", "version", "pipeline_config",
   "subject_workflow", "success", "crashfiles"]

/-- The aggregate numbers `report_md` computes for the header. -/
structure ReportData where
  numRuns : Nat
  numSuccess : Nat
  slowest : Option Nat
deriving DecidableEq, Repr

/-- The failure structure of `CpacRunCollection.report_md`: build the
records (reading `diff` may raise), build the overview frame (an empty
record list yields a frame with no columns, so the `success` and
`pipeline_config` projections raise `KeyError`), then the success-rate
division by the run count.  The rendered markdown text itself is not
modelled; the data of the header is. -/
def report_md (runs : List CpacRun) : Except String ReportData :=
  match runs.mapM CpacRun.record with
  | .error e => .error e
  | .ok recs =>
    let cols := if recs.isEmpty then [] else recordColumns
    if !cols.contains "success" then .error "KeyError: 'success'"
    else if !cols.contains "pipeline_config" then .error "KeyError: 'pipeline_config'"
    else if runs.length = 0 then .error "ZeroDivisionError: division by zero"
    else
      .ok { numRuns := runs.length,
            numSuccess := (recs.filter (fun r => r.success)).length,
            slowest := (recs.map (fun r => r.duration)).max? }

/-- A row of the gen192 error table after the `pipeline_config` split
into columns (`id`, `pid` dropped, prefix-stripped fields) and before
deduplication: the state of `df` at line 268 of the source. -/
structure Gen192Row where
  id : Line
  base_pipeline : Line
  perturb_pipeline : Line
  step : Line
  connectivity : Line
  nuisance : Line
  missing_resources : Line
  node_block : Line
  previous_node_block : Line
deriving DecidableEq, Repr

/-- A row of the final gen192 table, with the duplicate count column. -/
structure Gen192CountedRow extends Gen192Row where
  number_of_pipelines_with_this_error : Nat
deriving DecidableEq, Repr

/-- The deduplication key `(missing_resources, node_block,
previous_node_block)`. -/
def errTriple (r : Gen192Row) : Line × Line × Line :=
  (r.missing_resources, r.node_block, r.previous_node_block)

/-- `df.drop_duplicates(subset=..., keep="first")`: keep each row whose
key was not seen earlier. -/
def dropDupsGo (seen : List (Line × Line × Line)) :
    List Gen192Row → List Gen192Row
  | [] => []
  | r :: rs =>
    if seen.contains (errTriple r) then dropDupsGo seen rs
    else r :: dropDupsGo (errTriple r :: seen) rs

/-- `df.groupby([...])["id"].transform("count")` for one key: the number
of rows of the whole table sharing it (every `id` is a present string,
so the non-null count is the group size). -/
def tripleCount (rows : List Gen192Row) (t : Line × Line × Line) : Nat :=
  (rows.filter (fun s => errTriple s == t)).length

/-- Lines 268-273 of `_gen192_table_proc`: attach the group count to
every row, then drop rows whose key already appeared, keeping the
first. -/
def gen192TableDedup (rows : List Gen192Row) : List Gen192CountedRow :=
  (dropDupsGo [] rows).map fun r =>
    { toGen192Row := r,
      number_of_pipelines_with_this_error := tripleCount rows (errTriple r) }

/-! ## Lemmas about the text matchers -/

theorem stripLit_eq_some {p l r : Line} : stripLit p l = some r ↔ l = p ++ r := by
  induction p generalizing l with
  | nil => simp [stripLit]
  | cons c p ih =>
    cases l with
    | nil => simp [stripLit]
    | cons d l =>
      by_cases hdc : d = c
      · subst hdc; simp [stripLit, ih]
      · simp [stripLit, hdc, Ne.symm hdc]

theorem stripLit_none_of_divergeAt {A B : Line} (h : divergeAt A B = true)
    (r : Line) : stripLit B (A ++ r) = none := by
  induction A generalizing B with
  | nil => simp [divergeAt] at h
  | cons a as ih =>
    cases B with
    | nil => simp [divergeAt] at h
    | cons b bs =>
      simp only [divergeAt, Bool.or_eq_true, bne_iff_ne, ne_eq,
        decide_eq_true_eq] at h
      by_cases hab : a = b
      · subst hab
        simp only [List.cons_append, stripLit, if_pos rfl]
        exact ih (h.resolve_left (fun hne => hne rfl))
      · simp [stripLit, hab]

theorem dropSpaces_of_head {c : Char} {t : Line} (h : isPySpace c = false) :
    dropSpaces (c :: t) = c :: t := by
  simp [dropSpaces, h]

theorem not_digit_of_pySpace {c : Char} (h : isPySpace c = true) :
    c.isDigit = false := by
  simp only [isPySpace, Bool.or_eq_true, decide_eq_true_eq] at h
  rcases h with ((((h | h) | h) | h) | h) | h <;> subst h <;> decide

theorem matchTimestamp_cons_nondigit {c : Char} {t : Line}
    (hc : c.isDigit = false) : matchTimestamp (c :: t) = none := by
  simp [matchTimestamp, takeDigits, hc, bind]

theorem matchTimestamp_none_of_head {l : Line} {c : Char}
    (h : (dropSpaces l).head? = some c) (hc : c.isDigit = false) :
    matchTimestamp l = none := by
  cases l with
  | nil => rfl
  | cons d t =>
    by_cases hsp : isPySpace d
    · exact matchTimestamp_cons_nondigit (not_digit_of_pySpace hsp)
    · rw [dropSpaces_of_head (Bool.not_eq_true _ ▸ hsp)] at h
      obtain rfl : d = c := by simpa using h
      exact matchTimestamp_cons_nondigit hc

theorem markerMatch_eq_true {lit : String} {l : Line} :
    markerMatch lit l = true ↔
      ∃ r, dropSpaces l = lit.toList ++ r ∧ onlySpaces r = true := by
  unfold markerMatch
  cases h : stripLit lit.toList (dropSpaces l) with
  | none =>
    simp only [Bool.false_eq_true, false_iff]
    rintro ⟨r, hd, -⟩
    rw [stripLit_eq_some.mpr hd] at h
    cases h
  | some r =>
    constructor
    · intro hm; exact ⟨r, stripLit_eq_some.mp h, hm⟩
    · rintro ⟨r', hd, hsp⟩
      have : r = r' := by
        have := stripLit_eq_some.mpr hd
        rw [this] at h; exact (Option.some.inj h).symm
      rwa [this]

theorem restMatch_none {lit : String} {A r l : Line}
    (hd : dropSpaces l = A ++ r) (hdiv : divergeAt A lit.toList = true) :
    restMatch lit l = none := by
  unfold restMatch
  rw [hd]
  exact stripLit_none_of_divergeAt hdiv r

theorem markerMatch_false {lit : String} {A r l : Line}
    (hd : dropSpaces l = A ++ r) (hdiv : divergeAt A lit.toList = true) :
    markerMatch lit l = false := by
  unfold markerMatch
  rw [hd, stripLit_none_of_divergeAt hdiv]

/-! ## Disjointness of the line rules

No line can match two rules of the if/elif chain of `CpacRun.__init__`:
all the literal heads diverge pairwise, and the marker literals start
with a non-digit while a timestamp line starts with a digit. -/

theorem succLine_shadow {l : Line} (h : isSuccessLine l = true) :
    matchTimestamp l = none ∧ matchRunCommand l = none ∧ matchVersion l = none ∧
    matchPipelineConfiguration l = none ∧ matchSubjectWorkflow l = none ∧
    isErrorLine l = false ∧ isTestConfigSuccessLine l = false := by
  obtain ⟨r, hd, -⟩ := markerMatch_eq_true.mp h
  exact ⟨matchTimestamp_none_of_head (c := 'C') (by rw [hd]; rfl) (by decide),
    restMatch_none hd (by decide), restMatch_none hd (by decide),
    restMatch_none hd (by decide), restMatch_none hd (by decide),
    markerMatch_false hd (by decide), markerMatch_false hd (by decide)⟩

theorem testLine_shadow {l : Line} (h : isTestConfigSuccessLine l = true) :
    matchTimestamp l = none ∧ matchRunCommand l = none ∧ matchVersion l = none ∧
    matchPipelineConfiguration l = none ∧ matchSubjectWorkflow l = none ∧
    isErrorLine l = false ∧ isSuccessLine l = false := by
  obtain ⟨r, hd, -⟩ := markerMatch_eq_true.mp h
  exact ⟨matchTimestamp_none_of_head (c := 'T') (by rw [hd]; rfl) (by decide),
    restMatch_none hd (by decide), restMatch_none hd (by decide),
    restMatch_none hd (by decide), restMatch_none hd (by decide),
    markerMatch_false hd (by decide), markerMatch_false hd (by decide)⟩

theorem errLine_shadow {l : Line} (h : isErrorLine l = true) :
    matchTimestamp l = none ∧ matchRunCommand l = none ∧ matchVersion l = none ∧
    matchPipelineConfiguration l = none ∧ matchSubjectWorkflow l = none ∧
    isSuccessLine l = false ∧ isTestConfigSuccessLine l = false := by
  obtain ⟨r, hd, -⟩ := markerMatch_eq_true.mp h
  exact ⟨matchTimestamp_none_of_head (c := 'C') (by rw [hd]; rfl) (by decide),
    restMatch_none hd (by decide), restMatch_none hd (by decide),
    restMatch_none hd (by decide), restMatch_none hd (by decide),
    markerMatch_false hd (by decide), markerMatch_false hd (by decide)⟩

theorem guard_shadow {tc : Option Bool} {l : Line} (h : successGuard tc l = true) :
    matchTimestamp l = none ∧ matchRunCommand l = none ∧ matchVersion l = none ∧
    matchPipelineConfiguration l = none ∧ matchSubjectWorkflow l = none ∧
    isErrorLine l = false := by
  simp only [successGuard, Bool.or_eq_true, Bool.and_eq_true] at h
  rcases h with h | ⟨-, h⟩
  · obtain ⟨a, b, c, d, e, f, -⟩ := succLine_shadow h; exact ⟨a, b, c, d, e, f⟩
  · obtain ⟨a, b, c, d, e, f, -⟩ := testLine_shadow h; exact ⟨a, b, c, d, e, f⟩

theorem guard_false_of_errLine {tc : Option Bool} {l : Line}
    (h : isErrorLine l = true) : successGuard tc l = false := by
  obtain ⟨-, -, -, -, -, hS, hT⟩ := errLine_shadow h
  simp [successGuard, hS, hT]

/-! ## Characterizing the success and error flags of the line loop -/

/-- How `self.test_config` evolves across one line: it is rewritten
exactly by a `Run command:` line (not shadowed by the timestamp rule). -/
def tcStep (tc : Option Bool) (l : Line) : Option Bool :=
  match matchTimestamp l with
  | some _ => tc
  | none =>
    match matchRunCommand l with
    | some c => some (isSubstring " test_config ".toList c)
    | none => tc

/-- A success-marker line occurs somewhere in the log: either the
`CPAC run complete:` marker, or — when `test_config` is truthy at that
line — the test-config success sentence. -/
def successMarkerSeen : Option Bool → List Line → Bool
  | _, [] => false
  | tc, l :: ls => successGuard tc l || successMarkerSeen (tcStep tc l) ls

/-- An error-marker line (`CPAC run error:`) occurs somewhere. -/
def errorMarkerSeen (lines : List Line) : Bool := lines.any isErrorLine

theorem processLine_step {st : PState} {l : Line} {st1 : PState}
    (h : processLine st l = .ok st1) :
    st1.cpac_success = (st.cpac_success || successGuard st.test_config l) ∧
    st1.cpac_error = (st.cpac_error || isErrorLine l) ∧
    st1.test_config = tcStep st.test_config l := by
  cases hts : matchTimestamp l with
  | some raw =>
    have hg : successGuard st.test_config l = false := by
      cases hgv : successGuard st.test_config l
      · rfl
      · rw [(guard_shadow hgv).1] at hts; cases hts
    have he : isErrorLine l = false := by
      cases hev : isErrorLine l
      · rfl
      · rw [(errLine_shadow hev).1] at hts; cases hts
    cases hsp : strptime raw with
    | none =>
      have : processLine st l = .error "ValueError: unparseable timestamp" := by
        simp [processLine, hts, hsp]
      rw [this] at h; cases h
    | some stamp =>
      have hcalc : processLine st l = .ok (updateTimes st stamp) := by
        simp [processLine, hts, hsp]
      rw [hcalc] at h
      obtain rfl := (Except.ok.inj h).symm
      simp [updateTimes, tcStep, hts, hg, he]
  | none =>
    cases hcm : matchRunCommand l with
    | some c =>
      have hg : successGuard st.test_config l = false := by
        cases hgv : successGuard st.test_config l
        · rfl
        · rw [(guard_shadow hgv).2.1] at hcm; cases hcm
      have he : isErrorLine l = false := by
        cases hev : isErrorLine l
        · rfl
        · rw [(errLine_shadow hev).2.1] at hcm; cases hcm
      have hcalc : processLine st l = .ok { st with
          command := some c
          test_config := some (isSubstring " test_config ".toList c) } := by
        simp [processLine, hts, hcm]
      rw [hcalc] at h
      obtain rfl := (Except.ok.inj h).symm
      simp [tcStep, hts, hcm, hg, he]
    | none =>
      cases hv : matchVersion l with
      | some v =>
        have hg : successGuard st.test_config l = false := by
          cases hgv : successGuard st.test_config l
          · rfl
          · rw [(guard_shadow hgv).2.2.1] at hv; cases hv
        have he : isErrorLine l = false := by
          cases hev : isErrorLine l
          · rfl
          · rw [(errLine_shadow hev).2.2.1] at hv; cases hv
        have hcalc : processLine st l = .ok { st with version := some v } := by
          simp [processLine, hts, hcm, hv]
        rw [hcalc] at h
        obtain rfl := (Except.ok.inj h).symm
        simp [tcStep, hts, hcm, hg, he]
      | none =>
        cases hp : matchPipelineConfiguration l with
        | some p =>
          have hg : successGuard st.test_config l = false := by
            cases hgv : successGuard st.test_config l
            · rfl
            · rw [(guard_shadow hgv).2.2.2.1] at hp; cases hp
          have he : isErrorLine l = false := by
            cases hev : isErrorLine l
            · rfl
            · rw [(errLine_shadow hev).2.2.2.1] at hp; cases hp
          have hcalc : processLine st l = .ok { st with pipeline_config := some p } := by
            simp [processLine, hts, hcm, hv, hp]
          rw [hcalc] at h
          obtain rfl := (Except.ok.inj h).symm
          simp [tcStep, hts, hcm, hg, he]
        | none =>
          cases hw : matchSubjectWorkflow l with
          | some w =>
            have hg : successGuard st.test_config l = false := by
              cases hgv : successGuard st.test_config l
              · rfl
              · rw [(guard_shadow hgv).2.2.2.2.1] at hw; cases hw
            have he : isErrorLine l = false := by
              cases hev : isErrorLine l
              · rfl
              · rw [(errLine_shadow hev).2.2.2.2.1] at hw; cases hw
            have hcalc : processLine st l = .ok { st with subject_workflow := some w } := by
              simp [processLine, hts, hcm, hv, hp, hw]
            rw [hcalc] at h
            obtain rfl := (Except.ok.inj h).symm
            simp [tcStep, hts, hcm, hg, he]
          | none =>
            cases hgv : successGuard st.test_config l with
            | true =>
              have he : isErrorLine l = false := by
                cases hev : isErrorLine l
                · rfl
                · rw [guard_false_of_errLine hev] at hgv; cases hgv
              have hcalc : processLine st l = .ok { st with cpac_success := true } := by
                simp [processLine, hts, hcm, hv, hp, hw, hgv]
              rw [hcalc] at h
              obtain rfl := (Except.ok.inj h).symm
              simp [tcStep, hts, hcm, hgv, he]
            | false =>
              cases hev : isErrorLine l with
              | true =>
                have hcalc : processLine st l = .ok { st with cpac_error := true } := by
                  simp [processLine, hts, hcm, hv, hp, hw, hgv, hev]
                rw [hcalc] at h
                obtain rfl := (Except.ok.inj h).symm
                simp [tcStep, hts, hcm, hgv, hev]
              | false =>
                have hcalc : processLine st l = .ok st := by
                  simp [processLine, hts, hcm, hv, hp, hw, hgv, hev]
                rw [hcalc] at h
                obtain rfl := (Except.ok.inj h).symm
                simp [tcStep, hts, hcm, hgv, hev]

theorem processLog_markers {lines : List Line} {st st' : PState}
    (h : processLog st lines = .ok st') :
    st'.cpac_success = (st.cpac_success || successMarkerSeen st.test_config lines) ∧
    st'.cpac_error = (st.cpac_error || errorMarkerSeen lines) := by
  induction lines generalizing st with
  | nil =>
    obtain rfl := (Except.ok.inj h).symm
    simp [successMarkerSeen, errorMarkerSeen]
  | cons l ls ih =>
    unfold processLog at h
    cases hl : processLine st l with
    | error e => rw [hl] at h; cases h
    | ok st1 =>
      rw [hl] at h
      obtain ⟨h1, h2, h3⟩ := processLine_step hl
      obtain ⟨ih1, ih2⟩ := ih h
      constructor
      · rw [ih1, h1, h3, successMarkerSeen, Bool.or_assoc]
      · rw [ih2, h2]
        simp [errorMarkerSeen, Bool.or_assoc]

/-! ## Inverting a successful `CpacRun` construction -/

theorem mkCpacRun_ok_inv {lines : List Line} {lf bd : FsPath} {fs : List FsPath}
    {run : CpacRun} (h : mkCpacRun lines lf bd fs = .ok run) :
    ∃ st pc, processLog {} lines = .ok st ∧
      run.pipeline_config = some pc ∧
      run.success = (st.cpac_success && !st.cpac_error) ∧
      run.error_info = (if st.cpac_error || !st.cpac_success then
          searchErrorSignature (logText lines) else none).map
          (fun e => { e with pipeline_config := some pc }) ∧
      run.diff = (match st.maxTime, st.minTime with
        | some mx, some mn => some (mx - mn)
        | _, _ => none) ∧
      run.start = st.minTime ∧
      run.command = st.command ∧
      run.crashfiles = find_crash_files lf fs ∧
      (∀ v, pcPreResolve st = some v → pc = v) ∧
      (pcPreResolve st = none →
        ∃ rel, relativeTo lf bd = .ok rel ∧ pc = pathStr rel) := by
  unfold mkCpacRun at h
  cases hst : processLog {} lines with
  | error e =>
    rw [hst] at h
    simp [Bind.bind, Except.bind] at h
  | ok st =>
    rw [hst] at h
    simp only [Bind.bind, Except.bind] at h
    cases hpc : pcPreResolve st with
    | some v =>
      rw [hpc] at h
      simp only [pure, Except.pure] at h
      obtain rfl := (Except.ok.inj h).symm
      refine ⟨st, v, rfl, rfl, rfl, rfl, rfl, rfl, rfl, rfl, ?_, ?_⟩
      · intro v' hv'; rw [hpc] at hv'; exact Option.some.inj hv'
      · intro hnone; rw [hpc] at hnone; cases hnone
    | none =>
      rw [hpc] at h
      cases hrel : relativeTo lf bd with
      | error e =>
        rw [hrel] at h
        simp [Bind.bind, Except.bind] at h
      | ok rel =>
        rw [hrel] at h
        simp only [Bind.bind, Except.bind, pure, Except.pure] at h
        obtain rfl := (Except.ok.inj h).symm
        refine ⟨st, pathStr rel, rfl, rfl, rfl, rfl, rfl, rfl, rfl, rfl, ?_, ?_⟩
        · intro v' hv'; rw [hpc] at hv'; cases hv'
        · intro _; exact ⟨rel, rfl, rfl⟩

/-! ## Lemmas about the stable sort and its comparison -/

theorem lineLe_refl (l : Line) : lineLe l l = true := by
  induction l with
  | nil => rfl
  | cons c t ih => simp [lineLe, ih]

theorem lineLe_total (a b : Line) : (lineLe a b || lineLe b a) = true := by
  induction a generalizing b with
  | nil => simp [lineLe]
  | cons x xs ih =>
    cases b with
    | nil => simp [lineLe]
    | cons y ys =>
      by_cases hxy : x = y
      · subst hxy; simpa [lineLe] using ih ys
      · rcases lt_or_gt_of_ne hxy with hlt | hgt
        · simp [lineLe, hxy, Ne.symm hxy, hlt]
        · simp [lineLe, hxy, Ne.symm hxy, hgt]

theorem lineLe_trans {a b c : Line} (hab : lineLe a b = true)
    (hbc : lineLe b c = true) : lineLe a c = true := by
  induction a generalizing b c with
  | nil => simp [lineLe]
  | cons x xs ih =>
    cases b with
    | nil => simp [lineLe] at hab
    | cons y ys =>
      cases c with
      | nil => simp [lineLe] at hbc
      | cons z zs =>
        by_cases hxy : x = y
        · subst hxy
          by_cases hyz : x = z
          · subst hyz
            simp only [lineLe, if_pos rfl] at hab hbc ⊢
            exact ih hab hbc
          · simp only [lineLe, if_pos rfl] at hab
            simp only [lineLe] at hbc ⊢
            rw [if_neg hyz] at hbc ⊢
            exact hbc
        · by_cases hyz : y = z
          · subst hyz
            simp only [lineLe] at hab ⊢
            rw [if_neg hxy] at hab ⊢
            exact hab
          · simp only [lineLe] at hab hbc ⊢
            rw [if_neg hxy] at hab
            rw [if_neg hyz] at hbc
            have hxz : x < z := lt_trans (of_decide_eq_true hab) (of_decide_eq_true hbc)
            rw [if_neg (ne_of_lt hxz)]
            exact decide_eq_true hxz

theorem pcKeyLe_refl (a : Option Line) : pcKeyLe a a = true := by
  cases a with
  | none => rfl
  | some s => exact lineLe_refl s

theorem pcKeyLe_total (a b : Option Line) : (pcKeyLe a b || pcKeyLe b a) = true := by
  cases a <;> cases b <;> simp [pcKeyLe, lineLe_total]

theorem pcKeyLe_trans {a b c : Option Line} (hab : pcKeyLe a b = true)
    (hbc : pcKeyLe b c = true) : pcKeyLe a c = true := by
  cases a <;> cases b <;> cases c <;> simp_all [pcKeyLe]
  exact lineLe_trans hab hbc

theorem runLe_total (x y : CpacRun) : (runLe x y || runLe y x) = true :=
  pcKeyLe_total _ _

theorem runLe_trans {x y z : CpacRun} (hxy : runLe x y = true)
    (hyz : runLe y z = true) : runLe x z = true :=
  pcKeyLe_trans hxy hyz

theorem insortBy_perm (le : α → α → Bool) (x : α) (l : List α) :
    (insortBy le x l).Perm (x :: l) := by
  induction l with
  | nil => exact List.Perm.refl _
  | cons y t ih =>
    unfold insortBy
    by_cases hle : le x y = true
    · rw [if_pos hle]
    · rw [if_neg hle]
      exact (ih.cons y).trans (List.Perm.swap x y t)

theorem stableSortBy_perm (le : α → α → Bool) (l : List α) :
    (stableSortBy le l).Perm l := by
  induction l with
  | nil => exact List.Perm.refl _
  | cons x t ih => exact (insortBy_perm le x _).trans (ih.cons x)

theorem insortBy_pairwise {le : α → α → Bool}
    (htr : ∀ a b c, le a b = true → le b c = true → le a c = true)
    (hto : ∀ a b, (le a b || le b a) = true) (x : α) {l : List α}
    (h : List.Pairwise (fun a b => le a b = true) l) :
    List.Pairwise (fun a b => le a b = true) (insortBy le x l) := by
  induction l with
  | nil => simp [insortBy]
  | cons y t ih =>
    rw [List.pairwise_cons] at h
    obtain ⟨hy, ht⟩ := h
    unfold insortBy
    by_cases hle : le x y = true
    · rw [if_pos hle]
      refine List.Pairwise.cons ?_ (List.Pairwise.cons hy ht)
      intro z hz
      rcases List.mem_cons.mp hz with rfl | hz
      · exact hle
      · exact htr x y z hle (hy z hz)
    · rw [if_neg hle]
      refine List.Pairwise.cons ?_ (ih ht)
      intro z hz
      rcases List.mem_cons.mp ((insortBy_perm le x t).mem_iff.mp hz) with rfl | hz
      · have htot := hto z y
        rw [Bool.eq_false_iff.mpr hle, Bool.false_or] at htot
        exact htot
      · exact hy z hz

theorem stableSortBy_pairwise {le : α → α → Bool}
    (htr : ∀ a b c, le a b = true → le b c = true → le a c = true)
    (hto : ∀ a b, (le a b || le b a) = true) (l : List α) :
    List.Pairwise (fun a b => le a b = true) (stableSortBy le l) := by
  induction l with
  | nil => simp [stableSortBy]
  | cons x t ih => exact insortBy_pairwise htr hto x ih

theorem insortBy_filter_pos {le : α → α → Bool} (x : α) {l : List α}
    (p : α → Bool) (hx : p x = true)
    (hkey : ∀ y ∈ l, p y = true → le x y = true) :
    (insortBy le x l).filter p = x :: l.filter p := by
  induction l with
  | nil => simp [insortBy, hx]
  | cons y t ih =>
    unfold insortBy
    by_cases hle : le x y = true
    · rw [if_pos hle]
      simp [List.filter, hx]
    · rw [if_neg hle]
      have hpy : p y = false := by
        cases hpyv : p y
        · rfl
        · exact absurd (hkey y (List.mem_cons_self y t) hpyv) hle
      have ih' := ih (fun z hz hpz => hkey z (List.mem_cons_of_mem y hz) hpz)
      simp [List.filter, hpy, ih']

theorem insortBy_filter_neg {le : α → α → Bool} (x : α) {l : List α}
    (p : α → Bool) (hx : p x = false) :
    (insortBy le x l).filter p = l.filter p := by
  induction l with
  | nil => simp [insortBy, hx]
  | cons y t ih =>
    unfold insortBy
    by_cases hle : le x y = true
    · rw [if_pos hle]
      simp [List.filter, hx]
    · rw [if_neg hle]
      cases hpy : p y <;> simp [List.filter, hpy, ih]

theorem stableSortBy_filter {le : α → α → Bool} (p : α → Bool)
    (hp : ∀ x y, p x = true → p y = true → le x y = true) (l : List α) :
    (stableSortBy le l).filter p = l.filter p := by
  induction l with
  | nil => rfl
  | cons x t ih =>
    show (insortBy le x (stableSortBy le t)).filter p = _
    cases hx : p x with
    | true =>
      rw [insortBy_filter_pos x p hx (fun y _ hpy => hp x y hx hpy), ih]
      simp [List.filter, hx]
    | false =>
      rw [insortBy_filter_neg x p hx, ih]
      simp [List.filter, hx]

/-! ## The claims -/

/-- C1: For every log file, the parsed record's `success` field is true
iff a success-marker line was seen in the file and no error-marker line
was seen; in particular a log with both markers yields
`success = false`. -/
theorem c1_success_iff_markers (lines : List Line) (lf bd : FsPath)
    (fs : List FsPath) (run : CpacRun)
    (h : mkCpacRun lines lf bd fs = .ok run) :
    run.success = true ↔
      (successMarkerSeen none lines = true ∧ errorMarkerSeen lines = false) := by
  obtain ⟨st, pc, hst, -, hsucc, -⟩ := mkCpacRun_ok_inv h
  obtain ⟨h1, h2⟩ := processLog_markers hst
  have hi1 : ({} : PState).test_config = none := rfl
  have hi2 : ({} : PState).cpac_success = false := rfl
  have hi3 : ({} : PState).cpac_error = false := rfl
  rw [hsucc, h1, h2, hi1, hi2, hi3, Bool.false_or, Bool.false_or]
  simp [Bool.and_eq_true, Bool.not_eq_true']

/-- The log of the C1 witness: both a success and an error marker. -/
def c1log : List Line := ["CPAC run complete:".toList, "CPAC run error:".toList]

/-- The record parsed from `c1log`. -/
def c1run : CpacRun :=
  (mkCpacRun c1log ["base", "pypeline.log"] ["base"] []).toOption.getD
    { log_file := [], base_dir := [], command := none, test_config := none,
      version := none, pipeline_config := none, subject_workflow := none,
      error_info := none, diff := none, start := none, crashfiles := [],
      success := true }

/-- Witness for C1, at a log containing both markers (where indeed
`success = false` because the error marker was seen). -/
theorem c1_success_iff_markers_witness :
    c1run.success = true ↔
      (successMarkerSeen none c1log = true ∧ errorMarkerSeen c1log = false) :=
  c1_success_iff_markers c1log ["base", "pypeline.log"] ["base"] [] c1run rfl

/-- A log with no timestamped lines (only a success marker). -/
def c2log : List Line := ["CPAC run complete:".toList]

/-- The record parsed from `c2log`: its `diff` attribute was never
assigned. -/
def c2run : CpacRun :=
  (mkCpacRun c2log ["base", "pypeline.log"] ["base"] []).toOption.getD
    { log_file := [], base_dir := [], command := none, test_config := none,
      version := none, pipeline_config := none, subject_workflow := none,
      error_info := none, diff := some 0, start := none, crashfiles := [],
      success := true }

/-- A log with two timestamped lines, 5 minutes 30.25 seconds apart. -/
def c2tsLog : List Line :=
  ["230101-10:00:00,000".toList, "230101-10:05:30,250".toList]

/-- The record parsed from `c2tsLog`. -/
def c2tsRun : CpacRun :=
  (mkCpacRun c2tsLog ["base", "pypeline.log"] ["base"] []).toOption.getD
    { log_file := [], base_dir := [], command := none, test_config := none,
      version := none, pipeline_config := none, subject_workflow := none,
      error_info := none, diff := none, start := none, crashfiles := [],
      success := true }

/-- C2, settled against the code: when timestamps exist the duration is
`max - min` (here 330.25 s in microseconds), but on a log with no
timestamped lines `self.diff` is never assigned, so `record()` — and
with it the whole report — raises `AttributeError` instead of treating
the duration as a queryable absent value. -/
theorem c2_duration_attribute_bug :
    mkCpacRun c2tsLog ["base", "pypeline.log"] ["base"] [] = .ok c2tsRun ∧
    c2tsRun.diff = some 330250000 ∧
    mkCpacRun c2log ["base", "pypeline.log"] ["base"] [] = .ok c2run ∧
    c2run.diff = none ∧
    CpacRun.record c2run
      = .error "AttributeError: 'CpacRun' object has no attribute 'diff'" ∧
    report_md [c2run]
      = .error "AttributeError: 'CpacRun' object has no attribute 'diff'" :=
  ⟨rfl, rfl, rfl, rfl, rfl, rfl⟩

/-- C3: Error-signature matching happens exactly when the run is not
successful: a successful record has `error_info` absent, and a failed
record has `error_info` present iff one of the three signature patterns
matches the full log text. -/
theorem c3_error_info_iff_failure (lines : List Line) (lf bd : FsPath)
    (fs : List FsPath) (run : CpacRun)
    (h : mkCpacRun lines lf bd fs = .ok run) :
    (run.success = true → run.error_info = none) ∧
    (run.success = false →
      run.error_info.isSome = (searchErrorSignature (logText lines)).isSome) := by
  obtain ⟨st, pc, hst, -, hsucc, herr, -⟩ := mkCpacRun_ok_inv h
  constructor
  · intro hs
    rw [hsucc] at hs
    have hs' : st.cpac_success = true ∧ st.cpac_error = false := by
      simpa using hs
    have hcond : (st.cpac_error || !st.cpac_success) = false := by
      rw [hs'.1, hs'.2]
      rfl
    rw [herr, hcond]
    rfl
  · intro hs
    rw [hsucc] at hs
    have hcond : (st.cpac_error || !st.cpac_success) = true := by
      cases hsv : st.cpac_success <;> cases hev : st.cpac_error <;> simp_all
    rw [herr, hcond]
    cases hse : searchErrorSignature (logText lines) <;> simp [hse]

/-- The log of the C3 witness: a failed run whose text matches the
first error signature. -/
def c3log : List Line :=
  ["CPAC run error:".toList,
   "LookupError: When trying to connect node block 'nb1' to workflow 'wf' after node block 'nb0':".toList,
   "[!] C-PAC says: None of the listed resources are in the resource pool:".toList,
   "  anat_brain".toList]

/-- The record parsed from `c3log`. -/
def c3run : CpacRun :=
  (mkCpacRun c3log ["base", "pypeline.log"] ["base"] []).toOption.getD
    { log_file := [], base_dir := [], command := none, test_config := none,
      version := none, pipeline_config := none, subject_workflow := none,
      error_info := none, diff := none, start := none, crashfiles := [],
      success := true }

/-- Witness for C3, at a failed run with a matching error signature. -/
theorem c3_error_info_iff_failure_witness :
    (c3run.success = true → c3run.error_info = none) ∧
    (c3run.success = false →
      c3run.error_info.isSome = (searchErrorSignature (logText c3log)).isSome) :=
  c3_error_info_iff_failure c3log ["base", "pypeline.log"] ["base"] [] c3run rfl

/-- Follows the spec's words for the `pipeline_config` resolution order,
first available wins: (a) the value of an explicit
`Pipeline configuration:` line; (b) otherwise the argument following
`--preconfig` in the command, when a command is present and the flag
matches; (c) otherwise the log file's path relative to the base
directory, as a string. -/
def pipelineConfigResolutionSpec (explicit command : Option Line)
    (rel : Line) : Line :=
  match explicit with
  | some v => v
  | none =>
    match command with
    | some c =>
      match searchPreconfig c with
      | some a => a
      | none => rel
    | none => rel

/-- C4: The resolved `pipeline_config` of every parsed record follows
the spec's first-available-wins order (explicit line, then `--preconfig`
argument, then relative path) — in particular an explicit line wins even
when the command also contains `--preconfig`. -/
theorem c4_pipeline_config_resolution (lines : List Line) (lf bd : FsPath)
    (fs : List FsPath) (run : CpacRun) (st : PState) (rel : FsPath)
    (hst : processLog {} lines = .ok st)
    (hrel : relativeTo lf bd = .ok rel)
    (h : mkCpacRun lines lf bd fs = .ok run) :
    run.pipeline_config =
      some (pipelineConfigResolutionSpec st.pipeline_config st.command
        (pathStr rel)) := by
  obtain ⟨st', pc, hst', hpceq, -, -, -, -, -, -, hsome, hnone⟩ := mkCpacRun_ok_inv h
  rw [hst] at hst'
  obtain rfl := Except.ok.inj hst'
  cases hpcf : st.pipeline_config with
  | some e =>
    have hpre : pcPreResolve st = some e := by
      unfold pcPreResolve
      rw [hpcf]
    rw [hpceq, hsome e hpre]
    simp [pipelineConfigResolutionSpec, hpcf]
  | none =>
    cases hcmd : st.command with
    | none =>
      have hpre : pcPreResolve st = none := by
        unfold pcPreResolve
        rw [hpcf, hcmd]
      obtain ⟨rel', hrel', hpc⟩ := hnone hpre
      rw [hrel] at hrel'
      obtain rfl := Except.ok.inj hrel'
      rw [hpceq, hpc]
      simp [pipelineConfigResolutionSpec, hpcf, hcmd]
    | some c =>
      cases hsp : searchPreconfig c with
      | some a =>
        have hpre : pcPreResolve st = some a := by
          unfold pcPreResolve
          rw [hpcf, hcmd]
          exact hsp
        rw [hpceq, hsome a hpre]
        simp [pipelineConfigResolutionSpec, hpcf, hcmd, hsp]
      | none =>
        have hpre : pcPreResolve st = none := by
          unfold pcPreResolve
          rw [hpcf, hcmd]
          exact hsp
        obtain ⟨rel', hrel', hpc⟩ := hnone hpre
        rw [hrel] at hrel'
        obtain rfl := Except.ok.inj hrel'
        rw [hpceq, hpc]
        simp [pipelineConfigResolutionSpec, hpcf, hcmd, hsp]

/-- The log of the C4 witness: an explicit configuration line and a
command with `--preconfig` (the explicit line must win). -/
def c4log : List Line :=
  ["Pipeline configuration: cfgA".toList,
   "Run command: run.py --preconfig cfgB".toList]

/-- The loop state after reading `c4log`. -/
def c4st : PState := (processLog {} c4log).toOption.getD {}

/-- The record parsed from `c4log`. -/
def c4run : CpacRun :=
  (mkCpacRun c4log ["base", "pypeline.log"] ["base"] []).toOption.getD
    { log_file := [], base_dir := [], command := none, test_config := none,
      version := none, pipeline_config := none, subject_workflow := none,
      error_info := none, diff := none, start := none, crashfiles := [],
      success := true }

/-- Witness for C4 (the resolved value is `cfgA`, not `cfgB`). -/
theorem c4_pipeline_config_resolution_witness :
    c4run.pipeline_config =
      some (pipelineConfigResolutionSpec c4st.pipeline_config c4st.command
        (pathStr ["pypeline.log"])) :=
  c4_pipeline_config_resolution c4log ["base", "pypeline.log"] ["base"] []
    c4run c4st ["pypeline.log"] rfl rfl rfl

/-- A bare record carrying only a `pipeline_config`, for exercising the
collection sort. -/
def sortTestRun (pc : Option Line) : CpacRun :=
  { log_file := [], base_dir := [], command := none, test_config := none,
    version := none, pipeline_config := pc, subject_workflow := none,
    error_info := none, diff := none, start := none, crashfiles := [],
    success := false }

/-- C5: The collection's sort is a permutation, it orders records by the
key `(pipeline_config is absent, pipeline_config)` ascending (resolved
names lexicographically first, absent ones last), it is stable (records
with the same key keep their relative order), and the configs
`[b, a, absent, c]` indeed sort to `[a, b, c, absent]`. -/
theorem c5_collection_sorted :
    (∀ l : List CpacRun, (stableSortBy runLe l).Perm l) ∧
    (∀ l : List CpacRun,
      List.Pairwise (fun a b => runLe a b = true) (stableSortBy runLe l)) ∧
    (∀ (l : List CpacRun) (k : Option Line),
      (stableSortBy runLe l).filter (fun r => r.pipeline_config == k)
        = l.filter (fun r => r.pipeline_config == k)) ∧
    ((stableSortBy runLe
        [sortTestRun (some "b".toList), sortTestRun (some "a".toList),
         sortTestRun none, sortTestRun (some "c".toList)]).map
        (fun r => r.pipeline_config)
      = [some "a".toList, some "b".toList, some "c".toList, none]) := by
  refine ⟨stableSortBy_perm runLe, ?_, ?_, by decide⟩
  · intro l
    exact @stableSortBy_pairwise CpacRun runLe
      (fun a b c hab hbc => runLe_trans hab hbc) runLe_total l
  · intro l k
    refine stableSortBy_filter _ ?_ l
    intro x y hx hy
    unfold runLe
    rw [beq_iff_eq.mp hx, beq_iff_eq.mp hy]
    exact pcKeyLe_refl k

/-- C6: A parsed record's crash files are exactly the files of the
filesystem matching `crash-*.txt` whose directory is two levels above
the log file's parent directory; an empty match list is a normal
value, not an error. -/
theorem c6_crashfiles_glob (lines : List Line) (lf bd : FsPath)
    (fs : List FsPath) (run : CpacRun)
    (h : mkCpacRun lines lf bd fs = .ok run) :
    run.crashfiles = find_crash_files lf fs ∧
    ∀ f : FsPath, f ∈ find_crash_files lf fs ↔
      (f ∈ fs ∧ pathParent f = pathParent (pathParent (pathParent lf)) ∧
        isCrashFileName (pathName f).toList = true) := by
  obtain ⟨st, pc, -, -, -, -, -, -, -, hcrash, -⟩ := mkCpacRun_ok_inv h
  refine ⟨hcrash, fun f => ?_⟩
  unfold find_crash_files
  rw [List.mem_filter]
  simp [and_assoc]

/-- The log file of the C6 witness. -/
def c6lf : FsPath := ["root", "out", "log", "pipe", "s1", "pypeline.log"]

/-- The filesystem of the C6 witness: one matching crash file, one
non-matching name, one crash file in the wrong directory. -/
def c6fs : List FsPath :=
  [["root", "out", "log", "crash-a.txt"],
   ["root", "out", "log", "notcrash.txt"],
   ["root", "crash-b.txt"]]

/-- The record parsed from an empty log at `c6lf`. -/
def c6run : CpacRun :=
  (mkCpacRun [] c6lf ["root"] c6fs).toOption.getD
    { log_file := [], base_dir := [], command := none, test_config := none,
      version := none, pipeline_config := none, subject_workflow := none,
      error_info := none, diff := none, start := none, crashfiles := [],
      success := true }

/-- Witness for C6. -/
theorem c6_crashfiles_glob_witness :
    c6run.crashfiles = find_crash_files c6lf c6fs :=
  (c6_crashfiles_glob [] c6lf ["root"] c6fs c6run rfl).1

/-- The line of the C7 witness: it matches the timestamp prefix shape
but its month field is 13. -/
def c7line : Line := "231301-10:00:00,000".toList

/-- C7: A line matching the timestamp prefix pattern but failing strict
`%y%m%d-%H:%M:%S,%f` parsing (month 13) makes the whole parse fail with
a fatal error instead of being skipped. -/
theorem c7_bad_timestamp_fatal :
    (matchTimestamp c7line).isSome = true ∧
    mkCpacRun [c7line] ["base", "pypeline.log"] ["base"] []
      = .error "ValueError: unparseable timestamp" :=
  ⟨rfl, rfl⟩

/-- C8: Two error rows with the same
`(missing_resources, node_block, previous_node_block)` triple but
different `id`s collapse into one output row — the first — whose
`number_of_pipelines_with_this_error` is the number of rows sharing the
triple, here 2. -/
theorem c8_gen192_dedup (r1 r2 : Gen192Row) (ht : errTriple r1 = errTriple r2)
    (hid : r1.id ≠ r2.id) :
    gen192TableDedup [r1, r2] =
      [{ toGen192Row := r1, number_of_pipelines_with_this_error := 2 }] := by
  have h1 : dropDupsGo [] [r1, r2] = [r1] := by
    unfold dropDupsGo
    simp [dropDupsGo, ht]
  have h2 : tripleCount [r1, r2] (errTriple r1) = 2 := by
    simp [tripleCount, List.filter, ht]
  unfold gen192TableDedup
  rw [h1, List.map_singleton, h2]

/-- First row of the C8 witness. -/
def c8row1 : Gen192Row :=
  { id := "001".toList, base_pipeline := "abcd".toList,
    perturb_pipeline := "ccs".toList, step := "mask".toList,
    connectivity := "nilearn".toList, nuisance := "true".toList,
    missing_resources := "anat_brain".toList, node_block := "nb".toList,
    previous_node_block := "pnb".toList }

/-- Second row of the C8 witness: same triple, different id. -/
def c8row2 : Gen192Row := { c8row1 with id := "002".toList }

/-- Witness for C8. -/
theorem c8_gen192_dedup_witness :
    gen192TableDedup [c8row1, c8row2] =
      [{ toGen192Row := c8row1, number_of_pipelines_with_this_error := 2 }] :=
  c8_gen192_dedup c8row1 c8row2 rfl (by decide)

/-- C9: After any successful construction, `pipeline_config` is a
present string — the relative-path fallback guarantees it — so when two
parsed records are compared by the collection sort the `is absent`
component of the key never discriminates: the comparison is just the
lexicographic comparison of the two names. -/
theorem c9_pipeline_config_never_absent (lines : List Line) (lf bd : FsPath)
    (fs : List FsPath) (run : CpacRun)
    (lines2 : List Line) (lf2 bd2 : FsPath) (fs2 : List FsPath) (run2 : CpacRun)
    (h : mkCpacRun lines lf bd fs = .ok run)
    (h2 : mkCpacRun lines2 lf2 bd2 fs2 = .ok run2) :
    run.pipeline_config.isSome = true ∧
    runLe run run2
      = lineLe (run.pipeline_config.getD []) (run2.pipeline_config.getD []) := by
  obtain ⟨st, pc, -, hpceq, -⟩ := mkCpacRun_ok_inv h
  obtain ⟨st2, pc2, -, hpceq2, -⟩ := mkCpacRun_ok_inv h2
  unfold runLe
  rw [hpceq, hpceq2]
  exact ⟨rfl, rfl⟩

/-- The first run of the C9 witness (config resolved from the relative
path). -/
def c9run1 : CpacRun :=
  (mkCpacRun [] ["base", "a", "pypeline.log"] ["base"] []).toOption.getD
    { log_file := [], base_dir := [], command := none, test_config := none,
      version := none, pipeline_config := none, subject_workflow := none,
      error_info := none, diff := none, start := none, crashfiles := [],
      success := true }

/-- The second run of the C9 witness. -/
def c9run2 : CpacRun :=
  (mkCpacRun [] ["base", "b", "pypeline.log"] ["base"] []).toOption.getD
    { log_file := [], base_dir := [], command := none, test_config := none,
      version := none, pipeline_config := none, subject_workflow := none,
      error_info := none, diff := none, start := none, crashfiles := [],
      success := true }

/-- Witness for C9. -/
theorem c9_pipeline_config_never_absent_witness :
    c9run1.pipeline_config.isSome = true ∧
    runLe c9run1 c9run2
      = lineLe (c9run1.pipeline_config.getD []) (c9run2.pipeline_config.getD []) :=
  c9_pipeline_config_never_absent [] ["base", "a", "pypeline.log"] ["base"] []
    c9run1 [] ["base", "b", "pypeline.log"] ["base"] [] c9run2 rfl rfl

/-- C10: An empty collection (no matching log files) builds fine, but
rendering the report fails: the empty record set yields a frame with no
`success` column to project (and the success-rate division by the run
count would also fail), so no `Ran 0 pipelines` report is produced. -/
theorem c10_empty_collection_report_fails :
    cpacRunCollection [] ["base"] [] = .ok ([] : List CpacRun) ∧
    report_md [] = .error "KeyError: 'success'" :=
  ⟨rfl, rfl⟩

end Clmunch
